import Mathlib

/-!
Shallow embedding of `src/fluke_temperature_source.py`: a serial-protocol
driver for Fluke temperature sources (classes `fluke_base`, `fluke_9141`
and `fluke_6020`).  Transport reads are passed to each operation explicitly
as the scripted response lines; every operation returns its result together
with the list of lines it wrote to the transport, in order.
-/

/-- Python whitespace, as recognised by `str.strip` and by the regex class
`\s` on the ASCII range. -/
def isPySpace (c : Char) : Bool :=
  c == ' ' || c == '\t' || c == '\n' || c == '\r' || c.toNat == 11 || c.toNat == 12

/-- `str.strip()`: removes leading and trailing whitespace. -/
def pyStrip (s : String) : String :=
  ⟨((s.data.dropWhile isPySpace).reverse.dropWhile isPySpace).reverse⟩

/-- `str.lower()` on the ASCII strings this protocol exchanges. -/
def asciiLowerChar (c : Char) : Char :=
  if 'A' ≤ c ∧ c ≤ 'Z' then Char.ofNat (c.toNat + 32) else c

/-- `str.lower()` lifted to strings. -/
def asciiLower (s : String) : String :=
  ⟨s.data.map asciiLowerChar⟩

/-- Whether `n` is a prefix of `h` (character lists). -/
def isPrefixChars : List Char → List Char → Bool
  | [], _ => true
  | _ :: _, [] => false
  | a :: as, b :: bs => a == b && isPrefixChars as bs

/-- Python substring test `n in h` on character lists. -/
def isInfixChars (n : List Char) : List Char → Bool
  | [] => n.isEmpty
  | b :: t => isPrefixChars n (b :: t) || isInfixChars n t

/-- First hit of `f` over a list of candidates, in order. -/
def firstSome {α β : Type} : List α → (α → Option β) → Option β
  | [], _ => none
  | a :: as, f => match f a with
    | some b => some b
    | none => firstSome as f

/-- All ways a greedy `class+` can split `s`: each nonempty run of
`p`-characters that is a prefix of the maximal run, longest first.  These
are exactly the backtracking choices a regex engine tries, in its order. -/
def splitsDesc (p : Char → Bool) (s : List Char) : List (List Char × List Char) :=
  let (a, b) := s.span p
  (List.range a.length).map fun i => (a.take (a.length - i), a.drop (a.length - i) ++ b)

/-- Greedy `class+` in a position whose continuation cannot re-enter the
class: maximal munch, failing on an empty run. -/
def plusMax (p : Char → Bool) (s : List Char) : Option (List Char × List Char) :=
  match s.span p with
  | ([], _) => none
  | (a, b) => some (a, b)

/-- Consume one literal character. -/
def litChar (c : Char) : List Char → Option (List Char)
  | [] => none
  | x :: xs => if x == c then some xs else none

/-- Consume a literal character sequence. -/
def dropLit : List Char → List Char → Option (List Char)
  | [], s => some s
  | _ :: _, [] => none
  | c :: cs, x :: xs => if x == c then dropLit cs xs else none

/-- Regex `.`: any character except a newline. -/
def anyCh : List Char → Option (Char × List Char)
  | [] => none
  | x :: xs => if x == '\n' then none else some (x, xs)

/-- `re.match(r"u:\s+([CF])", s)`: the captured unit letter. -/
def matchUnit (s : String) : Option String := do
  let r1 ← litChar 'u' s.data
  let r2 ← litChar ':' r1
  let (_, r3) ← plusMax isPySpace r2
  match r3 with
  | u :: _ => if u == 'C' || u == 'F' then some ⟨[u]⟩ else none
  | [] => none

/-- `re.match(r"t:\s+(\d+.\d+)\s+([CF])", s)`: the dot in the source
pattern is unescaped, so it matches any character but a newline; the
backtracking over the first digit run mirrors the regex engine. -/
def matchTemperature (s : String) : Option (String × String) := do
  let r1 ← litChar 't' s.data
  let r2 ← litChar ':' r1
  let (_, r3) ← plusMax isPySpace r2
  firstSome (splitsDesc Char.isDigit r3) fun (d1, r4) => do
    let (c, r5) ← anyCh r4
    let (d2, r6) ← plusMax Char.isDigit r5
    let (_, r7) ← plusMax isPySpace r6
    match r7 with
    | u :: _ => if u == 'C' || u == 'F' then some (⟨d1 ++ c :: d2⟩, ⟨[u]⟩) else none
    | [] => none

/-- `re.match(r"c:\s+(\d+)\s+([CF]),\s+(in|out)", s)`: captures the integer
temperature digits, the unit letter and the status token. -/
def matchCutout (s : String) : Option (String × String × String) := do
  let r1 ← litChar 'c' s.data
  let r2 ← litChar ':' r1
  let (_, r3) ← plusMax isPySpace r2
  let (d, r4) ← plusMax Char.isDigit r3
  let (_, r5) ← plusMax isPySpace r4
  match r5 with
  | u :: r6 =>
    if u == 'C' || u == 'F' then do
      let r7 ← litChar ',' r6
      let (_, r8) ← plusMax isPySpace r7
      match dropLit ['i', 'n'] r8 with
      | some _ => some (⟨d⟩, ⟨[u]⟩, "in")
      | none => match dropLit ['o', 'u', 't'] r8 with
        | some _ => some (⟨d⟩, ⟨[u]⟩, "out")
        | none => none
    else none
  | [] => none

/-- `re.match(r"ver.(d+),\s*(d+.d+)", s)` exactly as the source writes it:
the digit classes lack the backslash, so they match runs of the literal
letter d, and the dots match any character but a newline. -/
def matchFirmwareSource (s : String) : Option (String × String) := do
  let r1 ← dropLit ['v', 'e', 'r'] s.data
  let (_, r2) ← anyCh r1
  let (g1, r3) ← plusMax (fun c => c == 'd') r2
  let r4 ← litChar ',' r3
  let (_, r5) := r4.span isPySpace
  firstSome (splitsDesc (fun c => c == 'd') r5) fun (d1, r6) => do
    let (c, r7) ← anyCh r6
    let (d2, _) ← plusMax (fun c2 => c2 == 'd') r7
    some (⟨g1⟩, ⟨d1 ++ c :: d2⟩)

/-- Modelled from the spec: the corrected firmware grammar
`ver.(\d+),\s*(\d+\.\d+)` that section 9 of the spec designates as the
intended behavior (digit classes and the decimal point escaped). -/
def matchFirmwareCorrected (s : String) : Option (String × String) := do
  let r1 ← dropLit ['v', 'e', 'r'] s.data
  let (_, r2) ← anyCh r1
  let (g1, r3) ← plusMax Char.isDigit r2
  let r4 ← litChar ',' r3
  let (_, r5) := r4.span isPySpace
  let (d1, r6) ← plusMax Char.isDigit r5
  let r7 ← litChar '.' r6
  let (d2, _) ← plusMax Char.isDigit r7
  some (⟨g1⟩, ⟨d1 ++ '.' :: d2⟩)

/-- Numeric value of a list of ASCII digits. -/
def natOfDigits (l : List Char) : Nat :=
  l.foldl (fun acc c => acc * 10 + (c.toNat - 48)) 0

/-- A Python float, modelled as the exact decimal `man / 10 ^ exp`.  Every
float that reaches this driver is written as a decimal literal (by the
caller or by the instrument), so the exact-decimal model agrees with
Python float semantics on all values the claims touch.  The
representation is kept normalized (no trailing zero factor in `man` while
`exp > 0`), so structural equality is value equality. -/
structure Dec where
  man : Int
  exp : Nat
deriving DecidableEq, Repr

/-- Fueled trailing-zero stripper for `Dec.normalize`. -/
def stripTensAux : Nat → Int → Nat → Int × Nat
  | 0, m, e => (m, e)
  | fuel + 1, m, e =>
    if e ≠ 0 ∧ m % 10 = 0 then stripTensAux fuel (m / 10) (e - 1) else (m, e)

/-- Canonical form of a decimal: divide out trailing powers of ten. -/
def Dec.normalize (d : Dec) : Dec :=
  let r := stripTensAux d.exp d.man d.exp
  ⟨r.1, r.2⟩

/-- A Python int, seen as a float value. -/
def Dec.ofInt (n : Int) : Dec := ⟨n, 0⟩

/-- Python float comparison `a < b`:
`a.man / 10 ^ a.exp < b.man / 10 ^ b.exp` by cross multiplication. -/
def Dec.blt (a b : Dec) : Bool :=
  decide (a.man * 10 ^ b.exp < b.man * 10 ^ a.exp)

/-- Model of Python `float()` on the strings this driver feeds it: optional
sign and surrounding whitespace, then one of `d+`, `d+.d*` or `.d+`.
Exponent, inf and nan forms never occur here and are not modelled. -/
def pyFloat (s : String) : Option Dec :=
  let t0 := (pyStrip s).data
  let (sign, t) : Int × List Char :=
    match t0 with
    | '-' :: r => (-1, r)
    | '+' :: r => (1, r)
    | r => (1, r)
  let (ip, r) := t.span Char.isDigit
  match r with
  | [] => if ip = [] then none else some (Dec.normalize ⟨sign * natOfDigits ip, 0⟩)
  | '.' :: r2 =>
    let (fp, r3) := r2.span Char.isDigit
    if r3 = [] ∧ ¬ (ip = [] ∧ fp = []) then
      some (Dec.normalize
        ⟨sign * (natOfDigits ip * 10 ^ fp.length + natOfDigits fp), fp.length⟩)
    else none
  | _ => none

/-- One decimal digit as a character. -/
def digitChar (d : Nat) : Char := Char.ofNat (48 + d)

/-- Decimal digits of a natural number, most significant first (fueled). -/
def natDigitsAux : Nat → Nat → List Char
  | 0, _ => []
  | fuel + 1, n => if n < 10 then [digitChar n] else natDigitsAux fuel (n / 10) ++ [digitChar (n % 10)]

/-- Decimal rendering of a natural number. -/
def natStr (n : Nat) : String := ⟨natDigitsAux (n + 1) n⟩

/-- Python `str` on an int. -/
def intStr (n : Int) : String :=
  if n < 0 then "-" ++ natStr n.natAbs else natStr n.natAbs

/-- Left-pad a digit string with zeros to width `k`. -/
def padZeros (k : Nat) (s : String) : String :=
  ⟨List.replicate (k - s.data.length) '0' ++ s.data⟩

/-- Python `str` on a float: shortest decimal rendering of the value, with
at least one fractional digit (`13.0`, `9.99999`, `0.5`). -/
def pyFloatStr (d0 : Dec) : String :=
  let d := Dec.normalize d0
  let sign := if d.man < 0 then "-" else ""
  let n := d.man.natAbs
  if d.exp = 0 then sign ++ natStr n ++ ".0"
  else sign ++ natStr (n / 10 ^ d.exp) ++ "." ++ padZeros d.exp (natStr (n % 10 ^ d.exp))

/-- A Python value stored in an instance attribute: the driver only ever
stores strings and None there. -/
inductive PyVal where
  | pyNone
  | str (s : String)
deriving DecidableEq, Repr

/-- A Python exception as this driver raises them. -/
inductive PyErr where
  | valueError (msg : String)
  | attributeError (name : String)
  | connectionError (msg : String)
  | serialException
deriving DecidableEq, Repr

/-- The class-body attributes of `fluke_base`.  Identifiers of the form
`__name` inside `class C` are mangled by Python to `_C__name`, so the
class body defines the three `_fluke_base__...` entries below; neither
subclass body defines any mangled attribute of its own. -/
def classAttrsBase : List (String × PyVal) :=
  [("_fluke_base__encoding_format", .str "ascii"),
   ("_fluke_base__duplex_mode", .str "half"),
   ("_fluke_base__temperature_unit", .str "c")]

/-- An engine instance: `self.port`, `self.baud` and the per-instance
attribute dictionary (mangled names as keys). -/
structure PyInst where
  port : String
  baud : Int
  attrs : List (String × PyVal)
deriving DecidableEq, Repr

/-- Python attribute lookup on an instance: the instance dictionary first,
then the class attributes, else AttributeError. -/
def getattr (i : PyInst) (name : String) : Except PyErr PyVal :=
  match i.attrs.lookup name with
  | some v => .ok v
  | none =>
    match classAttrsBase.lookup name with
    | some v => .ok v
    | none => .error (.attributeError name)

/-- Update an association list in place, appending when the key is new. -/
def setAssoc : List (String × PyVal) → String → PyVal → List (String × PyVal)
  | [], n, v => [(n, v)]
  | (k, w) :: rest, n, v =>
    if k == n then (n, v) :: rest else (k, w) :: setAssoc rest n v

/-- Python attribute assignment on an instance. -/
def setattr (i : PyInst) (name : String) (v : PyVal) : PyInst :=
  { i with attrs := setAssoc i.attrs name v }

/-- `fluke_base.allowed_duplex_modes`. -/
def allowed_duplex_modes : List String := ["half", "full"]

/-- `fluke_base.allowed_temperature_units`. -/
def allowed_temperature_units : List String := ["f", "c"]

/-- `fluke_9141.allowed_scan_modes`. -/
def allowed_scan_modes : List String := ["on", "off"]

namespace fluke_base

/-- `fluke_base.open` (named `open_connection` here because `open` is a
Lean keyword): `Serial(...)` may raise SerialException; afterwards a
handle whose `is_open` is false raises ConnectionError.  `serialOk` and
`isOpen` script the external transport. -/
def open_connection (port : String) (baud : Int) (serialOk isOpen : Bool) :
    Except PyErr Unit :=
  if ¬ serialOk then .error .serialException
  else if ¬ isOpen then
    .error (.connectionError
      ("Failed to open connection on port " ++ port ++ " at " ++ intStr baud ++ " baud."))
  else .ok ()

/-- `fluke_base.write`: encodes `command` or `command=value` followed by
CR LF and sends it (the transport write always happens first and is
recorded in the returned list).  `self.connection.write` returns the
number of bytes written — that int is what the source stores in `echo`
before the duplex check, so the `echo == None` guard can never fire.  In
full duplex the echo line (`echoLine`, what `read_until` then yields) is
stripped and must contain the command as a substring. -/
def write (i : PyInst) (command : String) (value : Option String) (echoLine : String) :
    Except PyErr Unit × List String :=
  let input_string :=
    match value with
    | none => command ++ "\r\n"
    | some v => command ++ "=" ++ v ++ "\r\n"
  let nbytes : Option Nat := some input_string.length
  let sent := [input_string]
  match getattr i "_fluke_base__duplex_mode" with
  | .error e => (.error e, sent)
  | .ok dm =>
    if dm = .str "full" then
      if nbytes = none then
        (.error (.valueError "Device is in full duplex mode and no echo received."), sent)
      else
        let echo := pyStrip echoLine
        if isInfixChars command.data echo.data then (.ok (), sent)
        else
          (.error (.valueError
            ("Command echo mismatch. Sent " ++ command ++ ", received " ++ echo ++ ".")),
           sent)
    else (.ok (), sent)

/-- `fluke_base.read`: writes the command, then `readline`.  `line` is what
the transport yields: `none` models Python None (the only case the
source's `output == None` guard catches); `some l` is a returned byte
line, decoded as ASCII and stripped — note a timed-out pyserial `readline`
returns the empty bytes `b""`, that is `some ""`, not None. -/
def read (i : PyInst) (command : String) (echoLine : String) (line : Option String) :
    Except PyErr String × List String :=
  match write i command none echoLine with
  | (.error e, w) => (.error e, w)
  | (.ok _, w) =>
    match line with
    | none => (.error (.valueError "No data received from device."), w)
    | some l => (.ok (pyStrip l), w)

/-- `fluke_base.set_duplex_mode`: validates the token, writes `du=<mode>`,
and returns — its Python return value is None, and it never assigns
`self.__duplex_mode`. -/
def set_duplex_mode (i : PyInst) (duplex : String) (echoLine : String) :
    Except PyErr PyVal × List String :=
  if duplex ∈ allowed_duplex_modes then
    match write i "du" (some duplex) echoLine with
    | (.error e, w) => (.error e, w)
    | (.ok _, w) => (.ok .pyNone, w)
  else (.error (.valueError "Duplex mode must be half, full."), [])

/-- `fluke_base.get_unit`: reads `u`, matches the unit grammar and returns
the lowercased captured letter.  (The source's `output == None` guard is
dead: `read` always returns a str.) -/
def get_unit (i : PyInst) (echoLine : String) (line : Option String) :
    Except PyErr String × List String :=
  match read i "u" echoLine line with
  | (.error e, w) => (.error e, w)
  | (.ok output, w) =>
    match matchUnit output with
    | none =>
      (.error (.valueError ("Unexpected temperature unit format received: " ++ output ++ ".")), w)
    | some u => (.ok (asciiLower u), w)

/-- `fluke_base.__init__`: stores port and baud, opens the transport, then
`self.__duplex_mode = self.set_duplex_mode(duplex.lower())` — the
assigned value is the Python None that `set_duplex_mode` returns — and
finally `self.__temperature_unit = self.get_unit()`. -/
def init (port : String) (baud : Int) (duplex : String) (serialOk isOpen : Bool)
    (echo1 echo2 : String) (unitLine : Option String) :
    Except PyErr PyInst × (Bool × Bool × List String) :=
  let i0 : PyInst := { port := port, baud := baud, attrs := [] }
  match open_connection port baud serialOk isOpen with
  | .error e => (.error e, (serialOk && isOpen, false, []))
  | .ok _ =>
    match set_duplex_mode i0 (asciiLower duplex) echo1 with
    | (.error e, w) => (.error e, (true, false, w))
    | (.ok ret, w1) =>
      let i1 := setattr i0 "_fluke_base__duplex_mode" ret
      match get_unit i1 echo2 unitLine with
      | (.error e, w2) => (.error e, (true, false, w1 ++ w2))
      | (.ok u, w2) =>
        let i2 := setattr i1 "_fluke_base__temperature_unit" (.str u)
        (.ok i2, (true, false, w1 ++ w2))

/-- `fluke_base.get_temperature`: reads `t`, matches the temperature
grammar, compares the captured unit letter case-insensitively with
`self.__temperature_unit` (a None there would fail on `.lower()`), then
converts the captured number with `float()`. -/
def get_temperature (i : PyInst) (echoLine : String) (line : Option String) :
    Except PyErr Dec × List String :=
  match read i "t" echoLine line with
  | (.error e, w) => (.error e, w)
  | (.ok output, w) =>
    match matchTemperature output with
    | none =>
      (.error (.valueError ("Unexpected temperature format received: " ++ output ++ ".")), w)
    | some (t, u) =>
      match getattr i "_fluke_base__temperature_unit" with
      | .error e => (.error e, w)
      | .ok (.str su) =>
        if asciiLower u ≠ asciiLower su then
          (.error (.valueError
            ("Temperature unit mismatch. Expected " ++ su ++ ", received " ++ u ++
             ". Please restart the temperature source")), w)
        else
          match pyFloat t with
          | some q => (.ok q, w)
          | none => (.error (.valueError ("could not convert string to float: " ++ t)), w)
      | .ok _ => (.error (.attributeError "lower"), w)

/-- `fluke_base.set_unit`: validates the lowercased unit against the
allowed list, writes `u=<unit>`, re-queries with `get_unit`, and assigns
`self.__temperature_unit = unit.lower()` only when the re-query agrees. -/
def set_unit (i : PyInst) (unit : String) (echo1 echo2 : String) (line : Option String) :
    Except PyErr PyInst × List String :=
  if asciiLower unit ∈ allowed_temperature_units then
    match write i "u" (some unit) echo1 with
    | (.error e, w) => (.error e, w)
    | (.ok _, w1) =>
      match get_unit i echo2 line with
      | (.error e, w2) => (.error e, w1 ++ w2)
      | (.ok g, w2) =>
        if asciiLower g = asciiLower unit then
          (.ok (setattr i "_fluke_base__temperature_unit" (.str (asciiLower unit))), w1 ++ w2)
        else (.ok i, w1 ++ w2)
  else
    (.error (.valueError ("Temperature unit " ++ unit ++ " not supported. Must be f, c.")), [])

end fluke_base

/-- A Python argument as passed to the numeric setters: an int, a float
(treated as the exact decimal value the caller wrote) or a non-numeric
string. -/
inductive PyArg where
  | int (n : Int)
  | float (d : Dec)
  | str (s : String)
deriving DecidableEq, Repr

/-- `type(x) in [int, float]`. -/
def PyArg.isNumber : PyArg → Bool
  | .int _ => true
  | .float _ => true
  | .str _ => false

/-- The numeric value of an argument; every use is guarded by the
preceding `isNumber` type check, so the string case is never reached. -/
def PyArg.val : PyArg → Dec
  | .int n => .ofInt n
  | .float d => d
  | .str _ => .ofInt 0

/-- Python `str` on a setter argument. -/
def pyStr : PyArg → String
  | .int n => intStr n
  | .float d => pyFloatStr d
  | .str s => s

/-- Python `round()`: nearest integer, ties to the even one. -/
def pyRound (d : Dec) : Int :=
  let p : Int := 10 ^ d.exp
  let f := d.man.fdiv p
  let r := d.man - f * p
  if 2 * r < p then f
  else if p < 2 * r then f + 1
  else if f % 2 = 0 then f else f + 1

namespace fluke_base

/-- `fluke_base.set_setpoint`: type check, then `write('s', str(value))`. -/
def set_setpoint (i : PyInst) (value : PyArg) (echoLine : String) :
    Except PyErr Unit × List String :=
  if ¬ value.isNumber then (.error (.valueError "Set point must be a number."), [])
  else write i "s" (some (pyStr value)) echoLine

/-- `fluke_base.set_proportional_band`: type check, range check 0..100,
then `write('pr', str(band))`. -/
def set_proportional_band (i : PyInst) (band : PyArg) (echoLine : String) :
    Except PyErr Unit × List String :=
  if ¬ band.isNumber then
    (.error (.valueError "Proportional band must be a number."), [])
  else if Dec.blt band.val (.ofInt 0) || Dec.blt (.ofInt 100) band.val then
    (.error (.valueError "Proportional band must be between 0 and 100 percent."), [])
  else write i "pr" (some (pyStr band)) echoLine

/-- `fluke_base.get_firmware_version`: reads `*ver`, matches the (defective)
source grammar; `model` is computed from group 1 but only the version
string from group 2 is returned. -/
def get_firmware_version (i : PyInst) (echoLine : String) (line : Option String) :
    Except PyErr String × List String :=
  match read i "*ver" echoLine line with
  | (.error e, w) => (.error e, w)
  | (.ok output, w) =>
    match matchFirmwareSource output with
    | none =>
      (.error (.valueError ("Unexpected firmware version format received: " ++ output ++ ".")), w)
    | some (m, v) =>
      let _model := pyStrip m
      (.ok (pyStrip v), w)

end fluke_base

namespace fluke_9141

/-- `fluke_9141.set_scan_mode`: validates the lowercased mode, then
`write('sc', mode.lower())`. -/
def set_scan_mode (i : PyInst) (mode : String) (echoLine : String) :
    Except PyErr Unit × List String :=
  if asciiLower mode ∈ allowed_scan_modes then
    fluke_base.write i "sc" (some (asciiLower mode)) echoLine
  else (.error (.valueError (mode ++ " is not a valid scan mode. Must be on, off.")), [])

/-- `fluke_9141.set_scan_rate`: no validation of any kind — the argument
goes straight through `str()` onto the wire. -/
def set_scan_rate (i : PyInst) (rate : PyArg) (echoLine : String) :
    Except PyErr Unit × List String :=
  fluke_base.write i "sr" (some (pyStr rate)) echoLine

/-- `fluke_9141.set_high_limit`: type check, then
`write('hl', str(round(limit)))`. -/
def set_high_limit (i : PyInst) (limit : PyArg) (echoLine : String) :
    Except PyErr Unit × List String :=
  if ¬ limit.isNumber then (.error (.valueError "High limit must be a number."), [])
  else fluke_base.write i "hl" (some (intStr (pyRound limit.val))) echoLine

end fluke_9141

namespace fluke_6020

/-- `fluke_6020.set_vernier`: type check, inclusive range check
0 .. 9.99999, then `write('v', str(vernier))`. -/
def set_vernier (i : PyInst) (vernier : PyArg) (echoLine : String) :
    Except PyErr Unit × List String :=
  if ¬ vernier.isNumber then (.error (.valueError "Vernier must be a number."), [])
  else if Dec.blt vernier.val (.ofInt 0) || Dec.blt ⟨999999, 5⟩ vernier.val then
    (.error (.valueError "Vernier must be between 0 and 9.99999."), [])
  else fluke_base.write i "v" (some (pyStr vernier)) echoLine

/-- `fluke_6020.get_cutout`: reads `c`, matches the cutout grammar,
converts group 1 with `float()`, then compares the unit letter against
`self.__temperature_unit` — which, written inside `class fluke_6020`,
Python mangles to `_fluke_6020__temperature_unit`, an attribute no class
in the hierarchy ever defines or assigns — and finally would raise on a
status of `out`. -/
def get_cutout (i : PyInst) (echoLine : String) (line : Option String) :
    Except PyErr Dec × List String :=
  match fluke_base.read i "c" echoLine line with
  | (.error e, w) => (.error e, w)
  | (.ok output, w) =>
    match matchCutout output with
    | none => (.error (.valueError ("Unexpected cutout format received: " ++ output ++ ".")), w)
    | some (d, u, status) =>
      match pyFloat d with
      | none => (.error (.valueError ("could not convert string to float: " ++ d)), w)
      | some cutout =>
        match getattr i "_fluke_6020__temperature_unit" with
        | .error e => (.error e, w)
        | .ok (.str su) =>
          if asciiLower u ≠ asciiLower su then
            (.error (.valueError
              ("Cutout unit mismatch. Expected " ++ su ++ ", received " ++ u ++
               ". Please restart the temperature source")), w)
          else if status = "out" then
            (.error (.valueError "Device is currently cut out."), w)
          else (.ok cutout, w)
        | .ok _ => (.error (.attributeError "lower"), w)

/-- `fluke_6020.set_cutout`: type check, then `write('c', str(cutout))`. -/
def set_cutout (i : PyInst) (cutout : PyArg) (echoLine : String) :
    Except PyErr Unit × List String :=
  if ¬ cutout.isNumber then (.error (.valueError "Cutout must be a number."), [])
  else fluke_base.write i "c" (some (pyStr cutout)) echoLine

end fluke_6020

/-- The instance state `__init__` leaves behind when the instrument reports
unit C: the duplex attribute holds the Python None returned by
`set_duplex_mode`, the unit attribute holds the lowercased reply. -/
def instC : PyInst :=
  { port := "COM3", baud := 2400,
    attrs := [("_fluke_base__duplex_mode", .pyNone),
              ("_fluke_base__temperature_unit", .str "c")] }

/-- Like `instC` but with session unit f. -/
def instF : PyInst :=
  { port := "COM3", baud := 2400,
    attrs := [("_fluke_base__duplex_mode", .pyNone),
              ("_fluke_base__temperature_unit", .str "f")] }

/-- An instance whose duplex attribute holds the string full — the state
the spec intends full-duplex sessions to be in (the constructor in the
source never actually produces it, see the duplex-mode theorems). -/
def instFull : PyInst :=
  { port := "COM3", baud := 2400,
    attrs := [("_fluke_base__duplex_mode", .str "full"),
              ("_fluke_base__temperature_unit", .str "c")] }


/-- A nonempty substring needle forces a nonempty haystack. -/
theorem infix_nonempty {n h : List Char} (hn : n ≠ [])
    (hi : isInfixChars n h = true) : h ≠ [] := by
  intro he
  subst he
  cases n with
  | nil => exact hn rfl
  | cons a as => simp [isInfixChars] at hi

/-- `write` always performs exactly one transport write — the encoded
command line, sent before any duplex handling — whatever the outcome. -/
theorem write_sent (i : PyInst) (c : String) (v : Option String) (e : String) :
    (fluke_base.write i c v e).2 =
      [(match v with | none => c ++ "\r\n" | some s => c ++ "=" ++ s ++ "\r\n")] := by
  unfold fluke_base.write
  cases v <;> cases hg : getattr i "_fluke_base__duplex_mode" <;>
    simp only [hg] <;> split <;> (try rfl) <;> split <;> (try rfl) <;>
      split <;> rfl

/-- `read` performs exactly one transport write: the encoded command. -/
theorem read_sent (i : PyInst) (c : String) (e : String) (line : Option String) :
    (fluke_base.read i c e line).2 = [c ++ "\r\n"] := by
  unfold fluke_base.read
  split
  · rename_i er w heq
    have h2 := congrArg Prod.snd heq
    simpa [write_sent] using h2.symm
  · rename_i u w heq
    have h2 := congrArg Prod.snd heq
    have h3 : w = [c ++ "\r\n"] := by simpa [write_sent] using h2.symm
    cases line <;> simp [h3]

/-- `get_unit` performs exactly one transport write: the `u` query. -/
theorem get_unit_sent (i : PyInst) (e : String) (line : Option String) :
    (fluke_base.get_unit i e line).2 = ["u\r\n"] := by
  unfold fluke_base.get_unit
  split
  · rename_i er w heq
    have h2 := congrArg Prod.snd heq
    simpa [read_sent] using h2.symm
  · rename_i u w heq
    have h2 := congrArg Prod.snd heq
    have h3 : w = ["u\r\n"] := by simpa [read_sent] using h2.symm
    split <;> simp [h3]

/-- Claim C5: when Session State duplex mode is full, `write` succeeds if
and only if the (stripped) echo line is non-empty and contains the sent
command token as a substring; an echo omitting the token raises the echo
mismatch ValueError.  Stated for nonempty command tokens — every token the
driver sends is nonempty. -/
theorem write_full_duplex_echo (i : PyInst) (command : String) (value : Option String)
    (echoLine : String)
    (hdm : getattr i "_fluke_base__duplex_mode" = .ok (.str "full"))
    (hc : command ≠ "") :
    ((fluke_base.write i command value echoLine).1 = .ok () ↔
      pyStrip echoLine ≠ "" ∧ isInfixChars command.data (pyStrip echoLine).data = true) ∧
    (isInfixChars command.data (pyStrip echoLine).data = false →
      (fluke_base.write i command value echoLine).1 =
        .error (.valueError
          ("Command echo mismatch. Sent " ++ command ++ ", received " ++ pyStrip echoLine ++ "."))) := by
  have hcd : command.data ≠ [] := fun hd => hc (String.ext hd)
  unfold fluke_base.write
  rw [hdm]
  by_cases hin : isInfixChars command.data (pyStrip echoLine).data = true
  · have hne : pyStrip echoLine ≠ "" :=
      fun he => infix_nonempty hcd hin (congrArg String.data he)
    simp [hin, hne]
  · have hin2 : isInfixChars command.data (pyStrip echoLine).data = false := by
      simpa using hin
    simp [hin2]

/-- Witness for the full-duplex echo theorem at concrete echoes. -/
theorem write_full_duplex_echo_witness :
    (fluke_base.write instFull "du" (some "half") "du=half").1 = .ok () ∧
    (fluke_base.write instFull "du" (some "half") "xx").1 =
      .error (.valueError "Command echo mismatch. Sent du, received xx.") := by
  constructor
  · exact (write_full_duplex_echo instFull "du" (some "half") "du=half" rfl
      (by decide)).1.mpr ⟨by decide, by decide⟩
  · exact (write_full_duplex_echo instFull "du" (some "half") "xx" rfl
      (by decide)).2 (by decide)

/-- Claim C1 (code bug in the source): constructing with the accepted
duplex token full leaves the Session State duplex attribute holding
Python None — a value outside half/full — because `__init__` assigns the
None returned by `set_duplex_mode`; and a call to `set_duplex_mode` with
a valid mode returns that None without updating any attribute (its result
type carries no instance at all). -/
theorem duplex_mode_never_updated :
    (fluke_base.init "p" 2400 "full" true true "" "" (some "u: C")).1 =
      .ok { port := "p", baud := 2400,
            attrs := [("_fluke_base__duplex_mode", PyVal.pyNone),
                      ("_fluke_base__temperature_unit", PyVal.str "c")] } ∧
    getattr { port := "p", baud := 2400,
              attrs := [("_fluke_base__duplex_mode", PyVal.pyNone),
                        ("_fluke_base__temperature_unit", PyVal.str "c")] }
        "_fluke_base__duplex_mode" = .ok PyVal.pyNone ∧
    (fluke_base.set_duplex_mode instC "full" "").1 = .ok PyVal.pyNone ∧
    PyVal.pyNone ≠ PyVal.str "half" ∧ PyVal.pyNone ≠ PyVal.str "full" :=
  ⟨rfl, rfl, rfl, by decide, by decide⟩

/-- Claim C2 (code bug in the source): with Session State unit c, the
cutout replies parse, but both raise AttributeError at the unit-check
line — `self.__temperature_unit` inside `class fluke_6020` mangles to the
never-defined `_fluke_6020__temperature_unit` — so the in line never
returns 10.0 and the out line never reaches the CutoutFailure raise. -/
theorem get_cutout_mangled_attr :
    (fluke_6020.get_cutout instC "" (some "c: 10 C, in")).1 =
      .error (.attributeError "_fluke_6020__temperature_unit") ∧
    (fluke_6020.get_cutout instC "" (some "c: 10 C, out")).1 =
      .error (.attributeError "_fluke_6020__temperature_unit") ∧
    matchCutout "c: 10 C, in" = some ("10", "C", "in") ∧
    matchCutout "c: 10 C, out" = some ("10", "C", "out") ∧
    pyFloat "10" = some (Dec.ofInt 10) :=
  ⟨rfl, rfl, rfl, rfl, rfl⟩

/-- Claim C3 (code bug in the source): the line ver.9141, 1.60 matches the
corrected grammar the spec designates as intended, yet
`get_firmware_version` raises the format ValueError on it, because the
source pattern's unescaped d+ only matches runs of the literal letter d. -/
theorem get_firmware_version_grammar_defect :
    (fluke_base.get_firmware_version instC "" (some "ver.9141, 1.60")).1 =
      .error (.valueError "Unexpected firmware version format received: ver.9141, 1.60.") ∧
    matchFirmwareCorrected "ver.9141, 1.60" = some ("9141", "1.60") ∧
    matchFirmwareSource "ver.9141, 1.60" = none :=
  ⟨rfl, rfl, rfl⟩

/-- Counterexample to claim C4: a transport line that is empty but present
— exactly what a timed-out pyserial readline yields — is returned by
`read` as the empty string instead of raising the no-data failure, since
the source only guards against Python None. -/
theorem read_empty_line_returns_empty :
    fluke_base.read instC "t" "" (some "") = (.ok "", ["t\r\n"]) ∧
    (fluke_base.read instC "t" "" (some "")).1 ≠
      .error (.valueError "No data received from device.") := by
  refine ⟨rfl, ?_⟩
  intro h
  have h2 : (Except.ok "" : Except PyErr String) =
      .error (.valueError "No data received from device.") := h
  exact Except.noConfusion h2

/-- Claim C4 (amended): `read` writes the command once, reads one line,
decodes it and strips surrounding whitespace; the no-data ValueError is
raised only when the transport yields no line at all (Python None), while
an empty line is returned as the empty string. -/
theorem read_behavior (i : PyInst) (cmd e : String) (line : Option String)
    (w : List String) (hw : fluke_base.write i cmd none e = (.ok (), w)) :
    fluke_base.read i cmd e line =
      ((match line with
        | none => .error (.valueError "No data received from device.")
        | some l => .ok (pyStrip l)), w) ∧
    w = [cmd ++ "\r\n"] := by
  constructor
  · unfold fluke_base.read
    rw [hw]
    cases line <;> rfl
  · have h2 := congrArg Prod.snd hw
    simpa [write_sent] using h2.symm

/-- Witness for the read-behavior theorem: an absent line raises the
no-data ValueError. -/
theorem read_behavior_witness :
    fluke_base.read instC "u" "" none =
      (.error (.valueError "No data received from device."), ["u\r\n"]) :=
  (read_behavior instC "u" "" none ["u\r\n"] rfl).1

/-- Claim C6: decoding t:  23.50 C yields the value 23.5 with Session
State unit c, and the unit-mismatch ValueError with unit f; in general
every matching response whose unit letter differs case-insensitively from
Session State's unit makes `get_temperature` fail with that error. -/
theorem get_temperature_unit_check :
    (fluke_base.get_temperature instC "" (some "t:  23.50 C")).1 = .ok ⟨235, 1⟩ ∧
    (fluke_base.get_temperature instF "" (some "t:  23.50 C")).1 =
      .error (.valueError
        "Temperature unit mismatch. Expected f, received C. Please restart the temperature source") ∧
    ∀ (i : PyInst) (e l t u su : String) (w : List String),
      fluke_base.write i "t" none e = (.ok (), w) →
      matchTemperature (pyStrip l) = some (t, u) →
      getattr i "_fluke_base__temperature_unit" = .ok (.str su) →
      asciiLower u ≠ asciiLower su →
      (fluke_base.get_temperature i e (some l)).1 =
        .error (.valueError
          ("Temperature unit mismatch. Expected " ++ su ++ ", received " ++ u ++
           ". Please restart the temperature source")) := by
  refine ⟨rfl, rfl, ?_⟩
  intro i e l t u su w hw hm ha hne
  unfold fluke_base.get_temperature fluke_base.read
  rw [hw]
  dsimp only
  rw [hm, ha]
  dsimp only
  rw [if_pos hne]

/-- Witness for the temperature unit check at a concrete mismatch. -/
theorem get_temperature_unit_check_witness :
    (fluke_base.get_temperature instC "" (some "t: 10.00 F")).1 =
      .error (.valueError
        "Temperature unit mismatch. Expected c, received F. Please restart the temperature source") := by
  have h := get_temperature_unit_check.2.2 instC "" "t: 10.00 F" "10.00" "F" "c"
    ["t\r\n"] rfl rfl rfl (by decide)
  exact h

/-- Counterexample to claim C7: `set_scan_rate` is a setter that, given a
non-numeric argument, performs a transport write and raises nothing. -/
theorem set_scan_rate_unvalidated :
    fluke_9141.set_scan_rate instC (.str "not a number") "" =
      (.ok (), ["sr=not a number\r\n"]) := rfl

/-- Claim C7 (amended): every validating setter fails fast — type or
range ValueError before any transport write, write count zero — and in
particular proportional band 150 raises the range error with no write;
`set_scan_rate`, however, performs no validation and always transmits its
argument. -/
theorem setters_validate_before_write (i : PyInst) (e s : String) :
    fluke_base.set_setpoint i (.str s) e =
      (.error (.valueError "Set point must be a number."), []) ∧
    fluke_base.set_proportional_band i (.str s) e =
      (.error (.valueError "Proportional band must be a number."), []) ∧
    (∀ d : Dec, (Dec.blt d (.ofInt 0) || Dec.blt (.ofInt 100) d) = true →
      fluke_base.set_proportional_band i (.float d) e =
        (.error (.valueError "Proportional band must be between 0 and 100 percent."), [])) ∧
    fluke_base.set_proportional_band i (.int 150) e =
      (.error (.valueError "Proportional band must be between 0 and 100 percent."), []) ∧
    fluke_9141.set_high_limit i (.str s) e =
      (.error (.valueError "High limit must be a number."), []) ∧
    fluke_6020.set_vernier i (.str s) e =
      (.error (.valueError "Vernier must be a number."), []) ∧
    (∀ d : Dec, (Dec.blt d (.ofInt 0) || Dec.blt ⟨999999, 5⟩ d) = true →
      fluke_6020.set_vernier i (.float d) e =
        (.error (.valueError "Vernier must be between 0 and 9.99999."), [])) ∧
    fluke_6020.set_cutout i (.str s) e =
      (.error (.valueError "Cutout must be a number."), []) ∧
    ∀ r : PyArg, (fluke_9141.set_scan_rate i r e).2 = ["sr=" ++ pyStr r ++ "\r\n"] := by
  refine ⟨rfl, rfl, ?_, rfl, rfl, rfl, ?_, rfl, ?_⟩
  · intro d hd
    unfold fluke_base.set_proportional_band
    simp [PyArg.isNumber, PyArg.val, hd]
  · intro d hd
    unfold fluke_6020.set_vernier
    simp [PyArg.isNumber, PyArg.val, hd]
  · intro r
    unfold fluke_9141.set_scan_rate
    simpa using write_sent i "sr" (some (pyStr r)) e

/-- Witness for the setter-validation theorem at concrete arguments. -/
theorem setters_validate_before_write_witness :
    fluke_base.set_proportional_band instC (.int 150) "" =
      (.error (.valueError "Proportional band must be between 0 and 100 percent."), []) ∧
    fluke_base.set_proportional_band instC (.float ⟨1005, 1⟩) "" =
      (.error (.valueError "Proportional band must be between 0 and 100 percent."), []) ∧
    (fluke_9141.set_scan_rate instC (.str "abc") "").2 = ["sr=abc\r\n"] := by
  refine ⟨(setters_validate_before_write instC "" "abc").2.2.2.1,
    (setters_validate_before_write instC "" "abc").2.2.1 ⟨1005, 1⟩ rfl, ?_⟩
  have h := (setters_validate_before_write instC "" "abc").2.2.2.2.2.2.2.2 (.str "abc")
  exact h

/-- Claim C8: vernier 10.0 is rejected with the range ValidationFailure
and zero writes; the bounds 0 and 9.99999 are inclusive — every value
outside raises, every value inside reaches transmission as its `str()`
token — and 9.99999 itself is transmitted verbatim as v=9.99999. -/
theorem set_vernier_bounds (i : PyInst) (e : String) :
    fluke_6020.set_vernier i (.float ⟨100, 1⟩) e =
      (.error (.valueError "Vernier must be between 0 and 9.99999."), []) ∧
    (fluke_6020.set_vernier i (.float ⟨999999, 5⟩) e).2 = ["v=9.99999\r\n"] ∧
    ((fluke_base.write i "v" (some "9.99999") e).1 = .ok () →
      (fluke_6020.set_vernier i (.float ⟨999999, 5⟩) e).1 = .ok ()) ∧
    (∀ d : Dec, Dec.blt d (.ofInt 0) = false → Dec.blt ⟨999999, 5⟩ d = false →
      fluke_6020.set_vernier i (.float d) e =
        fluke_base.write i "v" (some (pyFloatStr d)) e) ∧
    (∀ d : Dec, (Dec.blt d (.ofInt 0) || Dec.blt ⟨999999, 5⟩ d) = true →
      fluke_6020.set_vernier i (.float d) e =
        (.error (.valueError "Vernier must be between 0 and 9.99999."), [])) := by
  refine ⟨rfl, ?_, ?_, ?_, ?_⟩
  · have h := write_sent i "v" (some (pyStr (.float ⟨999999, 5⟩))) e
    simpa using h
  · intro hw
    exact hw
  · intro d hd1 hd2
    unfold fluke_6020.set_vernier
    simp [PyArg.isNumber, PyArg.val, hd1, hd2, pyStr]
  · intro d hd
    unfold fluke_6020.set_vernier
    simp [PyArg.isNumber, PyArg.val, hd]

/-- Witness for the vernier bounds theorem at the claim's two inputs. -/
theorem set_vernier_bounds_witness :
    fluke_6020.set_vernier instC (.float ⟨100, 1⟩) "" =
      (.error (.valueError "Vernier must be between 0 and 9.99999."), []) ∧
    (fluke_6020.set_vernier instC (.float ⟨999999, 5⟩) "").1 = .ok () :=
  ⟨(set_vernier_bounds instC "").1, (set_vernier_bounds instC "").2.2.1 rfl⟩

/-- Claim C9: `set_unit` with a valid unit writes u=<unit> and then
re-queries with the u command; the Session State unit attribute is set to
the lowercased unit exactly when the re-query agrees with it, and the
instance is returned unchanged otherwise. -/
theorem set_unit_requery (i : PyInst) (u g e1 e2 : String)
    (line : Option String) (wu wg : List String)
    (hu : asciiLower u ∈ allowed_temperature_units)
    (hw : fluke_base.write i "u" (some u) e1 = (.ok (), wu))
    (hg : fluke_base.get_unit i e2 line = (.ok g, wg)) :
    fluke_base.set_unit i u e1 e2 line =
      ((if asciiLower g = asciiLower u
        then .ok (setattr i "_fluke_base__temperature_unit" (.str (asciiLower u)))
        else .ok i), wu ++ wg) ∧
    wu = ["u=" ++ u ++ "\r\n"] ∧ wg = ["u\r\n"] := by
  refine ⟨?_, ?_, ?_⟩
  · unfold fluke_base.set_unit
    rw [if_pos hu, hw]
    dsimp only
    rw [hg]
    dsimp only
    by_cases hgu : asciiLower g = asciiLower u <;> simp [hgu]
  · have h2 := congrArg Prod.snd hw
    simpa [write_sent] using h2.symm
  · have h2 := congrArg Prod.snd hg
    simpa [get_unit_sent] using h2.symm

/-- Witness for the unit re-query theorem: an agreeing reply u: F updates
Session State to f, a stale reply u: C leaves it unchanged. -/
theorem set_unit_requery_witness :
    fluke_base.set_unit instC "f" "" "" (some "u: F") = (.ok instF, ["u=f\r\n", "u\r\n"]) ∧
    fluke_base.set_unit instC "f" "" "" (some "u: C") = (.ok instC, ["u=f\r\n", "u\r\n"]) := by
  constructor
  · have h := (set_unit_requery instC "f" "f" "" "" (some "u: F") ["u=f\r\n"] ["u\r\n"]
      (by decide) rfl rfl).1
    simpa using h
  · have h := (set_unit_requery instC "f" "c" "" "" (some "u: C") ["u=f\r\n"] ["u\r\n"]
      (by decide) rfl rfl).1
    simpa using h

/-- Claim C10: when the duplex token is invalid, the constructor has
already opened the serial transport (first component of the trace) before
`set_duplex_mode` raises the validation ValueError, and no close is ever
performed (second component stays false), leaving the handle open. -/
theorem init_leaks_open_transport (port : String) (baud : Int) (duplex : String)
    (e1 e2 : String) (uline : Option String)
    (h : asciiLower duplex ∉ allowed_duplex_modes) :
    fluke_base.init port baud duplex true true e1 e2 uline =
      (.error (.valueError "Duplex mode must be half, full."), (true, false, [])) := by
  unfold fluke_base.init fluke_base.open_connection fluke_base.set_duplex_mode
  simp [h]

/-- Witness for the transport-leak theorem at a concrete bad token. -/
theorem init_leaks_open_transport_witness :
    fluke_base.init "COM3" 2400 "simplex" true true "" "" none =
      (.error (.valueError "Duplex mode must be half, full."), (true, false, [])) :=
  init_leaks_open_transport "COM3" 2400 "simplex" "" "" none (by decide)
